import Mathlib

/-!
Verification development for the Smart-DNS-Helper repository.

Shallow embedding of the realtime event distribution core:
the `RealtimeEventEmitter` publish/subscribe bus (`src/lib/realtime.ts`),
the worker submission handler (`src/app/api/worker/route.ts`),
the event-stream endpoint (`src/app/api/events/route.ts`) and the
memory endpoints (`src/app/api/memory/route.ts`,
`src/lib/memory-store.ts`).

Modelling conventions:
* JavaScript `Record<string, number>` objects are embedded as association
  lists `List (String × Nat)` preserving insertion order, with the update
  `m[k] = (m[k] || 0) + 1` embedded as `bumpCount`.
* JS `Set` of callbacks is embedded as a duplicate-free `List Nat` of
  callback identities in insertion order (`Set.add` appends when absent,
  `Set.delete` removes, `forEach` iterates in insertion order).
* Fields of events that no claim touches (`timestamp : Date`, the free-form
  `data` payload) are omitted from the event record.
* A subscriber callback that raises is modelled by a `Nat → Bool` predicate
  on callback identities; one `emit` call site raising is modelled by a
  `Nat → Bool` predicate on the call-site index.
-/

/-- Kind of a realtime event (the `type` union in `src/lib/realtime.ts`). -/
inductive EventKind
  | error_input
  | validation
  | workflow
  | memory_update
  | completed
deriving DecidableEq, Repr

/-- Status of a realtime event (the `status` union in `src/lib/realtime.ts`). -/
inductive EventStatus
  | pending
  | processing
  | completed
  | error
deriving DecidableEq, Repr

/-- A realtime event as published on the bus (`RealtimeEvent` in
`src/lib/realtime.ts`); `timestamp` and `data` carry no claim-relevant
information and are omitted. -/
structure RealtimeEvent where
  id : String
  type : EventKind
  message : String
  status : EventStatus
deriving DecidableEq, Repr

/-- Association-list counter map embedding a JS `Record<string, number>`. -/
abbrev CountMap := List (String × Nat)

/-- Lookup with default 0, embedding `m[k] || 0`. -/
def getCount (m : CountMap) (k : String) : Nat :=
  match m.find? (fun p => p.1 == k) with
  | some p => p.2
  | none => 0

/-- Embedding of `m[k] = (m[k] || 0) + 1` on a JS object: an existing key is
updated in place, a new key is appended. -/
def bumpCount (m : CountMap) (k : String) : CountMap :=
  if (m.find? (fun p => p.1 == k)).isSome then
    m.map (fun p => if p.1 == k then (p.1, p.2 + 1) else p)
  else
    m ++ [(k, 1)]

/-- The `statistics` aggregate of `MemoryStore` (`src/lib/memory-store.ts`). -/
structure Statistics where
  errorTypes : CountMap
  severityCount : CountMap
  averageProcessingTime : Nat
deriving DecidableEq, Repr

/-- Result part of a `WorkflowRecord` as built by the worker route
(`src/app/api/worker/route.ts`): `rootCause` and `confidence` come from the
optional analysis, so they are optional. -/
structure WorkflowResult where
  errorType : String
  severity : String
  suggestions : List String
  rootCause : Option String
  confidence : Option Nat
  processedAt : String
deriving DecidableEq, Repr

/-- `WorkflowRecord` from `src/lib/memory-store.ts`. -/
structure WorkflowRecord where
  id : String
  result : WorkflowResult
  timestamp : String
deriving DecidableEq, Repr

/-- `MemoryStore` from `src/lib/memory-store.ts`. -/
structure MemoryStore where
  totalErrors : Nat
  lastProcessed : Option String
  workflows : List WorkflowRecord
  statistics : Statistics
deriving DecidableEq, Repr

/-- The zero-valued initial store (`createMemoryStore` in
`src/lib/memory-store.ts`, also the module-level initialisers in both
route files). -/
def createMemoryStore : MemoryStore :=
  { totalErrors := 0
    lastProcessed := none
    workflows := []
    statistics := { errorTypes := [], severityCount := [], averageProcessingTime := 0 } }

/-- The `ErrorAnalysis` record produced by the analysis provider
(`src/lib/error-analysis-agent.ts`), restricted to the fields the worker
route reads. -/
structure ErrorAnalysis where
  type : String
  rootCause : String
  suggestions : List String
  confidence : Nat
deriving DecidableEq, Repr

/-- The `ErrorRecord` returned by `ErrorAnalysisAgent.analyzeError`,
restricted to the fields the worker route reads (`analysis` is optional in
the TS interface). -/
structure ErrorRecord where
  analysis : Option ErrorAnalysis
  severity : String
  timestamp : String
deriving DecidableEq, Repr

/-- Embedding of JS `String.prototype.trim`, dropping leading and trailing
whitespace, computed on the character list (Lean's `String.trim` is
byte-position based and does not reduce in the kernel; the whitespace
character classes agree on the ASCII whitespace relevant here). -/
def jsTrim (s : String) : String :=
  String.mk (((s.data.dropWhile Char.isWhitespace).reverse.dropWhile
    Char.isWhitespace).reverse)

/-- Embedding of JS `s.substring(0, n)`, computed on the character list. -/
def jsTake (s : String) (n : Nat) : String :=
  String.mk (s.data.take n)

/-- Embedding of `errorRecord.analysis?.type || "Unknown"`: absent analysis
or an empty (falsy) type string both yield `"Unknown"`. -/
def analysisTypeOrUnknown (rec : ErrorRecord) : String :=
  match rec.analysis with
  | none => "Unknown"
  | some a => if a.type == "" then "Unknown" else a.type

/-- Embedding of `!error || error.trim().length === 0` on the request body
field `error` (`none` models a missing/undefined field, which is falsy). -/
def invalidInput : Option String → Bool
  | none => true
  | some s => s == "" || jsTrim s == ""

/-- HTTP status outcome of a route handler. -/
inductive WStatus
  | ok200
  | err400
  | err500
deriving DecidableEq, Repr

/-- The `workflowRecord` object the worker route builds after a successful
analysis (`src/app/api/worker/route.ts`). -/
def mkWorkflowRecord (eventId : String) (rec : ErrorRecord) (now : String) :
    WorkflowRecord :=
  { id := eventId
    result :=
      { errorType := analysisTypeOrUnknown rec
        severity := rec.severity
        suggestions := (rec.analysis.map ErrorAnalysis.suggestions).getD []
        rootCause := rec.analysis.map ErrorAnalysis.rootCause
        confidence := rec.analysis.map ErrorAnalysis.confidence
        processedAt := rec.timestamp }
    timestamp := now }

/-- The memory mutations the worker route performs after a successful
analysis, collected into one state transformer: `totalErrors += 1`,
`lastProcessed = error.substring(0, 100)`,
`workflows = [workflowRecord, ...workflows].slice(0, 10)`, and the two
statistics bumps. -/
def workerCommit (mem : MemoryStore) (eventId errStr : String)
    (rec : ErrorRecord) (now : String) : MemoryStore :=
  { totalErrors := mem.totalErrors + 1
    lastProcessed := some (jsTake errStr 100)
    workflows := (mkWorkflowRecord eventId rec now :: mem.workflows).take 10
    statistics :=
      { mem.statistics with
        errorTypes := bumpCount mem.statistics.errorTypes (analysisTypeOrUnknown rec)
        severityCount := bumpCount mem.statistics.severityCount rec.severity } }

/-- Rendering of an optional confidence inside the template literal of the
completion message (an absent value prints as `undefined` in JS). -/
def showConfidence : Option Nat → String
  | none => "undefined"
  | some n => toString n

/-- The message of the `completed` event. -/
def completedMessage (rec : ErrorRecord) : String :=
  "AI Agent completed analysis: " ++ analysisTypeOrUnknown rec ++ " (" ++
    showConfidence (rec.analysis.map ErrorAnalysis.confidence) ++ "% confidence)"

/-- The first `validation`/`processing` event the worker route emits. -/
def validationEvent (eventId : String) : RealtimeEvent :=
  { id := eventId ++ "_validation", type := .validation
    message := "Validating error input...", status := .processing }

/-- The `validation`/`error` event emitted on invalid input. -/
def validationErrorEvent (eventId : String) : RealtimeEvent :=
  { id := eventId ++ "_error", type := .validation
    message := "Validation failed: Empty error message", status := .error }

/-- The `workflow`/`processing` event. -/
def workflowEvent (eventId : String) : RealtimeEvent :=
  { id := eventId ++ "_workflow", type := .workflow
    message := "AI Agent analyzing error...", status := .processing }

/-- The `memory_update`/`completed` event. -/
def memoryUpdateEvent (eventId : String) : RealtimeEvent :=
  { id := eventId ++ "_memory", type := .memory_update
    message := "Memory store updated", status := .completed }

/-- The final `completed`/`completed` event; its id is the bare `eventId`. -/
def completedEvent (eventId : String) (rec : ErrorRecord) : RealtimeEvent :=
  { id := eventId, type := .completed
    message := completedMessage rec, status := .completed }

/-- Outcome of one worker `POST` call: the events passed to
`realtimeEvents.emit` in call order, the HTTP status of the response, and
the module-level `memory` object after the call. -/
structure WorkerOutcome where
  published : List RealtimeEvent
  status : WStatus
  memory : MemoryStore
deriving DecidableEq, Repr

/-- Embedding of the worker `POST` handler (`src/app/api/worker/route.ts`).
`body` is the parsed JSON body (`none` models `request.json()` rejecting,
which the outer `catch` turns into a 500); its first component is the
`error` field, the second the `eventId` field. `analyze` is the result of
the `agent.analyzeError` call (`Except.error` models it throwing).
`emitThrows k` models a subscriber callback raising inside the k-th
`realtimeEvents.emit` call site of the handler (0 = validation event,
1 = validation-error event, 2 = workflow event, 3 = memory-update event,
4 = completed event); the raised error propagates out of `emit` into the
outer `catch`, which returns a 500. An event is listed in `published` as
soon as its `emit` call was made. -/
def workerPOST (mem : MemoryStore) (body : Option (Option String × String))
    (analyze : Except Unit ErrorRecord) (now : String)
    (emitThrows : Nat → Bool) : WorkerOutcome :=
  match body with
  | none => ⟨[], .err500, mem⟩
  | some (error, eventId) =>
    let vEv := validationEvent eventId
    if emitThrows 0 then ⟨[vEv], .err500, mem⟩
    else if invalidInput error then
      let eEv := validationErrorEvent eventId
      ⟨[vEv, eEv], if emitThrows 1 then .err500 else .err400, mem⟩
    else
      let wEv := workflowEvent eventId
      if emitThrows 2 then ⟨[vEv, wEv], .err500, mem⟩
      else
        match analyze with
        | .error _ => ⟨[vEv, wEv], .err500, mem⟩
        | .ok rec =>
          let mem2 := workerCommit mem eventId (error.getD "") rec now
          let mEv := memoryUpdateEvent eventId
          if emitThrows 3 then ⟨[vEv, wEv, mEv], .err500, mem2⟩
          else
            let cEv := completedEvent eventId rec
            ⟨[vEv, wEv, mEv, cEv], if emitThrows 4 then .err500 else .ok200, mem2⟩

/-- The worker `POST` handler on the normal path: the analysis provider call
returns normally and no subscriber callback raises. -/
def workerPOSTOk (mem : MemoryStore) (body : Option (Option String × String))
    (rec : ErrorRecord) (now : String) : WorkerOutcome :=
  workerPOST mem body (.ok rec) now (fun _ => false)

/-- A sample analysis result used for concrete evaluations. -/
def sampleRecord : ErrorRecord :=
  { analysis := some { type := "TypeError", rootCause := "null access"
                       suggestions := ["check input"], confidence := 85 }
    severity := "high", timestamp := "2026-01-01T00:00:00Z" }

/-- The subscriber set of `RealtimeEventEmitter` (`src/lib/realtime.ts`),
embedded as a duplicate-free list of callback identities in insertion
order. `subscribe` performs `Set.add`: a no-op when the callback is already
present, otherwise an append. -/
def subscribeBus (subs : List Nat) (c : Nat) : List Nat :=
  if c ∈ subs then subs else subs ++ [c]

/-- The unsubscribe closure returned by `subscribe`: `Set.delete` of that
callback. -/
def unsubscribeBus (subs : List Nat) (c : Nat) : List Nat :=
  subs.filter (fun x => x != c)

/-- Embedding of `RealtimeEventEmitter.emit`:
`this.subscribers.forEach((callback) => callback(event))`. The result is the
list of callbacks actually invoked with the event, in iteration order.
`throws c = true` models callback `c` raising when invoked: the exception
propagates out of `forEach`, so iteration stops at that callback (it was
itself invoked, the ones after it were not). -/
def emitDeliver : List Nat → (Nat → Bool) → List Nat
  | [], _ => []
  | c :: rest, throws => if throws c then [c] else c :: emitDeliver rest throws

/-- One operation on the global bus `realtimeEvents`: an `emit` by a route
handler, a `subscribe` by an event-stream connection, or an invocation of an
unsubscribe closure. -/
inductive BusOp
  | pub (e : RealtimeEvent)
  | sub (c : Nat)
  | unsub (c : Nat)
deriving DecidableEq, Repr

/-- Bus state paired with the delivery log: which callback received which
event, in delivery order. `pub` delivers to exactly the currently registered
subscribers (no buffering: `emit` only walks the current `Set`). -/
def busStep :
    List Nat × List (Nat × RealtimeEvent) → BusOp →
    List Nat × List (Nat × RealtimeEvent)
  | (subs, log), BusOp.pub e => (subs, log ++ subs.map fun c => (c, e))
  | (subs, log), BusOp.sub c => (subscribeBus subs c, log)
  | (subs, log), BusOp.unsub c => (unsubscribeBus subs c, log)

/-- Run a sequence of bus operations from a given state. -/
def busRun (st : List Nat × List (Nat × RealtimeEvent)) (ops : List BusOp) :
    List Nat × List (Nat × RealtimeEvent) :=
  ops.foldl busStep st

/-- A frame written to one event-stream connection
(`src/app/api/events/route.ts`): the synthetic connected frame enqueued in
`start`, a serialized bus event forwarded by the subscribed callback, or a
keep-alive comment line. -/
inductive Frame
  | connected
  | eventFrame (e : RealtimeEvent)
  | keepalive
deriving DecidableEq, Repr

/-- Observable state of one event-stream connection: the frames enqueued so
far, whether the forwarding callback is currently registered on the bus, and
whether the keep-alive interval timer is currently scheduled. -/
structure ConnState where
  frames : List Frame
  subscribed : Bool
  timerActive : Bool
deriving DecidableEq, Repr

/-- Effect of the `start(controller)` body of the `ReadableStream` in the
events route: enqueue the connected frame, subscribe the forwarding
callback, schedule the keep-alive interval. -/
def eventsStart : ConnState :=
  { frames := [Frame.connected], subscribed := true, timerActive := true }

/-- Delivery of one bus event to a connection: the forwarding callback
enqueues a serialized frame; after unsubscribe the callback is no longer
registered and nothing is enqueued. -/
def deliverEvent (s : ConnState) (e : RealtimeEvent) : ConnState :=
  if s.subscribed then { s with frames := s.frames ++ [Frame.eventFrame e] } else s

/-- Shape of the underlying source object the events route passes to the
`ReadableStream` constructor: it defines a `start` method and no `cancel`
method; the cleanup closure (`clearInterval` + `unsubscribe`) is the return
value of `start`. -/
structure UnderlyingSource where
  cancelDefined : Bool
deriving DecidableEq, Repr

/-- The underlying source literally written in
`src/app/api/events/route.ts`: only `start` is defined. -/
def eventsSource : UnderlyingSource :=
  { cancelDefined := false }

/-- The cleanup closure the route's `start` returns:
`clearInterval(interval); unsubscribe()`. -/
def cleanupClosure (s : ConnState) : ConnState :=
  { s with subscribed := false, timerActive := false }

/-- Web Streams semantics of a connection closing: the stream machinery
invokes the source's `cancel` method when one is defined; the value `start`
returned is treated as the resolution value of the start promise and is
never invoked. -/
def onClose (src : UnderlyingSource) (cleanup : ConnState → ConnState)
    (s : ConnState) : ConnState :=
  if src.cancelDefined then cleanup s else s

/-- Parsed JSON body of `POST /api/memory`: each field optionally present
(the handler spreads `updates` over the current store). -/
structure MemUpdates where
  totalErrors : Option Nat
  lastProcessed : Option (Option String)
  workflows : Option (List WorkflowRecord)
  statistics : Option Statistics
deriving DecidableEq, Repr

/-- Embedding of `memoryStore = { ...memoryStore, ...updates }`: a shallow
merge where every field present in `updates` overwrites the stored field. -/
def memoryMerge (s : MemoryStore) (u : MemUpdates) : MemoryStore :=
  { totalErrors := u.totalErrors.getD s.totalErrors
    lastProcessed := u.lastProcessed.getD s.lastProcessed
    workflows := u.workflows.getD s.workflows
    statistics := u.statistics.getD s.statistics }

/-- Embedding of the `POST` handler of `src/app/api/memory/route.ts`:
`none` models `request.json()` rejecting, which the `catch` turns into a
500 without touching the store. -/
def memoryPOSTHandler (s : MemoryStore) (body : Option MemUpdates) :
    MemoryStore × WStatus :=
  match body with
  | none => (s, .err500)
  | some u => (memoryMerge s u, .ok200)

/-- Embedding of the `DELETE` handler of `src/app/api/memory/route.ts`: the
store is replaced by the literal zero-valued object in one assignment,
whatever it held before. -/
def memoryDELETEHandler (_s : MemoryStore) : MemoryStore :=
  { totalErrors := 0
    lastProcessed := none
    workflows := []
    statistics := { errorTypes := [], severityCount := [], averageProcessingTime := 0 } }

/-- The two module-level stores of the application: `memory` declared in
`src/app/api/worker/route.ts` and `memoryStore` declared in
`src/app/api/memory/route.ts`. They are distinct module-level objects;
neither route file imports the other's. -/
structure AppState where
  workerMemory : MemoryStore
  apiMemoryStore : MemoryStore
deriving DecidableEq, Repr

/-- The worker `POST` handler acting on the application state: it reads and
writes only the worker route's `memory` object. -/
def appWorkerPOST (st : AppState) (body : Option (Option String × String))
    (rec : ErrorRecord) (now : String) : AppState × WorkerOutcome :=
  let out := workerPOSTOk st.workerMemory body rec now
  ({ st with workerMemory := out.memory }, out)

/-- `GET /api/memory`: returns the memory route's `memoryStore` snapshot. -/
def appMemoryGET (st : AppState) : MemoryStore :=
  st.apiMemoryStore

/-- `POST /api/memory` acting on the application state. -/
def appMemoryPOST (st : AppState) (body : Option MemUpdates) :
    AppState × WStatus :=
  let r := memoryPOSTHandler st.apiMemoryStore body
  ({ st with apiMemoryStore := r.1 }, r.2)

/-- `DELETE /api/memory` acting on the application state. -/
def appMemoryDELETE (st : AppState) : AppState :=
  { st with apiMemoryStore := memoryDELETEHandler st.apiMemoryStore }

/-- The snapshot of the worker route's `memory` object included in the
worker `GET`/`POST` responses. -/
def appWorkerGETMemory (st : AppState) : MemoryStore :=
  st.workerMemory

/-- A sequence of worker submissions on the normal path, threading the
worker route's `memory` object through the handler. -/
def runSubmissions (mem : MemoryStore) :
    List (Option (Option String × String) × ErrorRecord × String) → MemoryStore
  | [] => mem
  | (body, rec, now) :: rest =>
      runSubmissions (workerPOSTOk mem body rec now).memory rest

/-- Emit with no raising callback delivers to every registered subscriber in
order. -/
theorem emitDeliver_no_throw (l : List Nat) :
    emitDeliver l (fun _ => false) = l := by
  induction l with
  | nil => rfl
  | cons c rest ih => simp [emitDeliver, ih]

/-- One worker call on the normal path preserves the workflow cap. -/
theorem workerPOSTOk_cap (mem : MemoryStore)
    (body : Option (Option String × String)) (rec : ErrorRecord)
    (now : String) (h : mem.workflows.length ≤ 10) :
    (workerPOSTOk mem body rec now).memory.workflows.length ≤ 10 := by
  unfold workerPOSTOk workerPOST
  match body with
  | none => simpa using h
  | some (error, eventId) =>
    by_cases hv : invalidInput error
    · simpa [hv] using h
    · simp [hv, workerCommit, List.length_take]

/-- Any sequence of worker submissions preserves the workflow cap. -/
theorem runSubmissions_cap
    (subs : List (Option (Option String × String) × ErrorRecord × String))
    (mem : MemoryStore) (h : mem.workflows.length ≤ 10) :
    (runSubmissions mem subs).workflows.length ≤ 10 := by
  induction subs generalizing mem with
  | nil => exact h
  | cons p rest ih =>
    obtain ⟨body, rec, now⟩ := p
    exact ih _ (workerPOSTOk_cap mem body rec now h)

/-- C1: for every non-empty, non-whitespace-only input string submitted to
the worker POST handler, with the analysis provider call returning normally,
exactly four events are published on the EventBus, of kinds validation,
workflow, memory_update, completed, in that order, and each published
event's id string begins with the submission's eventId. -/
theorem C1_worker_publishes_four_ordered_events (mem : MemoryStore)
    (err eventId now : String) (rec : ErrorRecord)
    (hval : invalidInput (some err) = false) :
    (workerPOSTOk mem (some (some err, eventId)) rec now).published.map RealtimeEvent.type
        = [EventKind.validation, EventKind.workflow, EventKind.memory_update, EventKind.completed]
    ∧ (workerPOSTOk mem (some (some err, eventId)) rec now).published.length = 4
    ∧ ∀ e ∈ (workerPOSTOk mem (some (some err, eventId)) rec now).published,
        ∃ t, e.id = eventId ++ t := by
  unfold workerPOSTOk workerPOST
  simp only [hval, Bool.false_eq_true, if_false, reduceIte]
  refine ⟨rfl, rfl, ?_⟩
  intro e he
  simp only [validationEvent, workflowEvent, memoryUpdateEvent, completedEvent,
    List.mem_cons, List.not_mem_nil, or_false] at he
  rcases he with h | h | h | h <;> subst h
  · exact ⟨"_validation", rfl⟩
  · exact ⟨"_workflow", rfl⟩
  · exact ⟨"_memory", rfl⟩
  · exact ⟨"", by simp⟩

/-- C1 witness: a concrete valid submission. -/
theorem C1_witness :
    invalidInput (some "boom") = false
    ∧ ((workerPOSTOk createMemoryStore (some (some "boom", "evt_1")) sampleRecord "t").published.map RealtimeEvent.type
          = [EventKind.validation, EventKind.workflow, EventKind.memory_update, EventKind.completed]
        ∧ (workerPOSTOk createMemoryStore (some (some "boom", "evt_1")) sampleRecord "t").published.length = 4
        ∧ ∀ e ∈ (workerPOSTOk createMemoryStore (some (some "boom", "evt_1")) sampleRecord "t").published,
            ∃ t, e.id = "evt_1" ++ t) :=
  ⟨by decide,
   C1_worker_publishes_four_ordered_events createMemoryStore "boom" "evt_1" "t"
     sampleRecord (by decide)⟩

/-- C2 counterexample: on a whitespace-only input the handler publishes two
events (the initial validation/processing event is emitted before the check),
not exactly one. -/
theorem C2_counterexample :
    (workerPOSTOk createMemoryStore (some (some " ", "evt_2")) sampleRecord "t").published.length = 2
    ∧ ¬ ((workerPOSTOk createMemoryStore (some (some " ", "evt_2")) sampleRecord "t").published.length = 1) := by
  decide

/-- C2 amended: for every empty, missing, or whitespace-only input, the
worker POST handler publishes exactly two events, both of kind validation,
the first with status processing and the second with status error; no event
of kind workflow, memory_update, or completed is published; the HTTP
response has status 400; and the memory is unchanged. -/
theorem C2_amended_two_validation_events (mem : MemoryStore)
    (error : Option String) (eventId now : String) (rec : ErrorRecord)
    (hinv : invalidInput error = true) :
    (workerPOSTOk mem (some (error, eventId)) rec now).published
        = [validationEvent eventId, validationErrorEvent eventId]
    ∧ (workerPOSTOk mem (some (error, eventId)) rec now).published.length = 2
    ∧ (workerPOSTOk mem (some (error, eventId)) rec now).published.map RealtimeEvent.status
        = [EventStatus.processing, EventStatus.error]
    ∧ (∀ e ∈ (workerPOSTOk mem (some (error, eventId)) rec now).published,
        e.type = EventKind.validation)
    ∧ (workerPOSTOk mem (some (error, eventId)) rec now).status = WStatus.err400
    ∧ (workerPOSTOk mem (some (error, eventId)) rec now).memory = mem := by
  unfold workerPOSTOk workerPOST
  simp only [hinv, if_true, reduceIte]
  refine ⟨rfl, rfl, rfl, ?_, rfl, rfl⟩
  intro e he
  fin_cases he <;> rfl

/-- C2 witness: a concrete whitespace-only submission. -/
theorem C2_witness :
    invalidInput (some "   ") = true
    ∧ ((workerPOSTOk createMemoryStore (some (some "   ", "evt_3")) sampleRecord "t").published
          = [validationEvent "evt_3", validationErrorEvent "evt_3"]
        ∧ (workerPOSTOk createMemoryStore (some (some "   ", "evt_3")) sampleRecord "t").published.length = 2
        ∧ (workerPOSTOk createMemoryStore (some (some "   ", "evt_3")) sampleRecord "t").published.map RealtimeEvent.status
            = [EventStatus.processing, EventStatus.error]
        ∧ (∀ e ∈ (workerPOSTOk createMemoryStore (some (some "   ", "evt_3")) sampleRecord "t").published,
            e.type = EventKind.validation)
        ∧ (workerPOSTOk createMemoryStore (some (some "   ", "evt_3")) sampleRecord "t").status = WStatus.err400
        ∧ (workerPOSTOk createMemoryStore (some (some "   ", "evt_3")) sampleRecord "t").memory = createMemoryStore) :=
  ⟨by decide,
   C2_amended_two_validation_events createMemoryStore (some "   ") "evt_3" "t"
     sampleRecord (by decide)⟩

/-- C3 counterexample: with two registered subscribers where the first one
raises, the second registered callback is not invoked — `forEach` propagates
the exception and delivery to the remaining callbacks is lost. -/
theorem C3_counterexample :
    (1 ∈ [0, 1]) ∧ 1 ∉ emitDeliver [0, 1] (fun c => c == 0) := by
  decide

/-- C3 amended: when a callback raises during publish, delivery stops at
that callback: exactly the callbacks registered before the first raising
callback (in iteration order), plus that callback itself, are invoked with
the event; the callbacks after it are not. -/
theorem C3_amended_delivery_stops_at_thrower (subs : List Nat)
    (throws : Nat → Bool) :
    emitDeliver subs throws
      = subs.takeWhile (fun c => !throws c)
          ++ (subs.dropWhile (fun c => !throws c)).take 1 := by
  induction subs with
  | nil => rfl
  | cons c rest ih =>
    by_cases h : throws c
    · simp [emitDeliver, h, List.takeWhile_cons, List.dropWhile_cons]
    · simp [emitDeliver, h, List.takeWhile_cons, List.dropWhile_cons, ih]

/-- C4 evaluated at the failing scenario: opening an event-stream connection
and then closing it leaves the forwarding callback subscribed and the
keep-alive timer scheduled — the cleanup closure is only the return value of
`start`, which the stream machinery never invokes, and no `cancel` method is
defined, so neither the unsubscribe nor the timer cancellation ever runs. -/
theorem C4_no_cleanup_on_close :
    onClose eventsSource cleanupClosure eventsStart = eventsStart
    ∧ (onClose eventsSource cleanupClosure eventsStart).subscribed = true
    ∧ (onClose eventsSource cleanupClosure eventsStart).timerActive = true := by
  decide

/-- C5 counterexample: a concrete submission that passes validation, commits
to memory, and then fails while publishing the memory_update event (a
subscriber callback raising): the handler returns a 500 yet the memory is
changed from its pre-submission value. -/
theorem C5_counterexample :
    (workerPOST createMemoryStore (some (some "boom", "evt_5")) (.ok sampleRecord) "t"
        (fun k => k == 3)).status = WStatus.err500
    ∧ ¬ ((workerPOST createMemoryStore (some (some "boom", "evt_5")) (.ok sampleRecord) "t"
        (fun k => k == 3)).memory = createMemoryStore) := by
  decide

/-- C5 amended: for every submission that passes validation and returns a
non-success (500) result, the memory is either completely unchanged (failure
before or during the analysis call) or exactly the fully committed state
(failure while publishing the memory_update or completed event); no
partially applied Commit is ever visible. -/
theorem C5_amended_no_partial_commit (mem : MemoryStore)
    (err eventId now : String) (analyze : Except Unit ErrorRecord)
    (emitThrows : Nat → Bool)
    (hval : invalidInput (some err) = false)
    (hfail : (workerPOST mem (some (some err, eventId)) analyze now emitThrows).status
        = WStatus.err500) :
    (workerPOST mem (some (some err, eventId)) analyze now emitThrows).memory = mem
    ∨ ∃ rec, analyze = Except.ok rec
        ∧ (workerPOST mem (some (some err, eventId)) analyze now emitThrows).memory
            = workerCommit mem eventId err rec now := by
  unfold workerPOST at hfail ⊢
  simp only [hval, Bool.false_eq_true, if_false, reduceIte] at hfail ⊢
  by_cases h0 : emitThrows 0
  · simp [h0]
  · simp only [h0, Bool.false_eq_true, if_false, reduceIte] at hfail ⊢
    by_cases h2 : emitThrows 2
    · simp [h2]
    · simp only [h2, Bool.false_eq_true, if_false, reduceIte] at hfail ⊢
      match analyze with
      | .error _ => simp
      | .ok rec =>
        by_cases h3 : emitThrows 3
        · simp [h3]
        · simp only [h3, Bool.false_eq_true, if_false, reduceIte] at hfail ⊢
          by_cases h4 : emitThrows 4
          · simp [h4]
          · simp [h4] at hfail

/-- C5 witness: the amended statement instantiated at a concrete failing
submission (the memory_update emit raises). -/
theorem C5_witness :
    invalidInput (some "boom") = false
    ∧ (workerPOST createMemoryStore (some (some "boom", "evt_6")) (.ok sampleRecord) "t"
        (fun k => k == 3)).status = WStatus.err500
    ∧ ((workerPOST createMemoryStore (some (some "boom", "evt_6")) (.ok sampleRecord) "t"
          (fun k => k == 3)).memory = createMemoryStore
        ∨ ∃ rec, (Except.ok sampleRecord : Except Unit ErrorRecord) = Except.ok rec
            ∧ (workerPOST createMemoryStore (some (some "boom", "evt_6")) (.ok sampleRecord) "t"
                (fun k => k == 3)).memory
                = workerCommit createMemoryStore "evt_6" "boom" rec "t") :=
  ⟨by decide, by decide,
   C5_amended_no_partial_commit createMemoryStore "boom" "evt_6" "t"
     (.ok sampleRecord) (fun k => k == 3) (by decide) (by decide)⟩

/-- C6: every successful submission increments totalErrors by exactly 1 and
prepends the new WorkflowRecord (newest-first, truncated to 10), and after
every sequence of submissions starting from the initial store the workflows
list has length at most 10. -/
theorem C6_total_errors_and_workflow_cap (mem : MemoryStore)
    (err eventId now : String) (rec : ErrorRecord)
    (subs : List (Option (Option String × String) × ErrorRecord × String))
    (hval : invalidInput (some err) = false) :
    (workerPOSTOk mem (some (some err, eventId)) rec now).status = WStatus.ok200
    ∧ (workerPOSTOk mem (some (some err, eventId)) rec now).memory.totalErrors
        = mem.totalErrors + 1
    ∧ (workerPOSTOk mem (some (some err, eventId)) rec now).memory.workflows
        = (mkWorkflowRecord eventId rec now :: mem.workflows).take 10
    ∧ (workerPOSTOk mem (some (some err, eventId)) rec now).memory.workflows.head?
        = some (mkWorkflowRecord eventId rec now)
    ∧ (runSubmissions createMemoryStore subs).workflows.length ≤ 10 := by
  refine ⟨?_, ?_, ?_, ?_, runSubmissions_cap subs createMemoryStore (by simp [createMemoryStore])⟩
    <;> unfold workerPOSTOk workerPOST
    <;> simp [hval, workerCommit]

/-- C6 witness: a concrete successful submission and a concrete submission
sequence. -/
theorem C6_witness :
    invalidInput (some "boom") = false
    ∧ ((workerPOSTOk createMemoryStore (some (some "boom", "evt_7")) sampleRecord "t").status = WStatus.ok200
        ∧ (workerPOSTOk createMemoryStore (some (some "boom", "evt_7")) sampleRecord "t").memory.totalErrors
            = createMemoryStore.totalErrors + 1
        ∧ (workerPOSTOk createMemoryStore (some (some "boom", "evt_7")) sampleRecord "t").memory.workflows
            = (mkWorkflowRecord "evt_7" sampleRecord "t" :: createMemoryStore.workflows).take 10
        ∧ (workerPOSTOk createMemoryStore (some (some "boom", "evt_7")) sampleRecord "t").memory.workflows.head?
            = some (mkWorkflowRecord "evt_7" sampleRecord "t")
        ∧ (runSubmissions createMemoryStore
            [(some (some "x", "evt_8"), sampleRecord, "t1")]).workflows.length ≤ 10) :=
  ⟨by decide,
   C6_total_errors_and_workflow_cap createMemoryStore "boom" "evt_7" "t" sampleRecord
     [(some (some "x", "evt_8"), sampleRecord, "t1")] (by decide)⟩

/-- Deleting a callback that was never registered leaves the subscriber set
unchanged. -/
theorem unsubscribeBus_not_mem (subs : List Nat) (c : Nat) (h : c ∉ subs) :
    unsubscribeBus subs c = subs := by
  unfold unsubscribeBus
  apply List.filter_eq_self.mpr
  intro a ha
  simp only [bne_iff_ne, ne_eq]
  exact fun hac => h (hac ▸ ha)

/-- C7: for a callback newly registered via subscribe, invoking the returned
unsubscribe token removes exactly that callback (restoring the previous
subscriber set), a second invocation is a no-op, every other subscriber is
unaffected, and a subsequent publish with no raising callback still delivers
the event to every remaining subscriber. -/
theorem C7_unsubscribe_token (subs : List Nat) (c d : Nat)
    (hc : c ∉ subs) :
    unsubscribeBus (subscribeBus subs c) c = subs
    ∧ c ∉ unsubscribeBus (subscribeBus subs c) c
    ∧ unsubscribeBus (unsubscribeBus (subscribeBus subs c) c) c
        = unsubscribeBus (subscribeBus subs c) c
    ∧ (d ∈ unsubscribeBus (subscribeBus subs c) c ↔ d ∈ subs)
    ∧ emitDeliver (unsubscribeBus (subscribeBus subs c) c) (fun _ => false) = subs := by
  have h1 : unsubscribeBus (subscribeBus subs c) c = subs := by
    unfold subscribeBus
    simp only [hc, if_false, reduceIte]
    unfold unsubscribeBus
    rw [List.filter_append]
    have h2 : List.filter (fun x => x != c) [c] = [] := by simp
    rw [h2, List.append_nil]
    exact unsubscribeBus_not_mem subs c hc
  refine ⟨h1, ?_, ?_, ?_, ?_⟩
  · rw [h1]; exact hc
  · rw [h1]; exact unsubscribeBus_not_mem subs c hc
  · rw [h1]
  · rw [h1]; exact emitDeliver_no_throw subs

/-- C7 witness: a concrete subscriber set with two other subscribers. -/
theorem C7_witness :
    ((1:Nat) ∉ [0, 2])
    ∧ (unsubscribeBus (subscribeBus [0, 2] 1) 1 = [0, 2]
        ∧ 1 ∉ unsubscribeBus (subscribeBus [0, 2] 1) 1
        ∧ unsubscribeBus (unsubscribeBus (subscribeBus [0, 2] 1) 1) 1
            = unsubscribeBus (subscribeBus [0, 2] 1) 1
        ∧ (0 ∈ unsubscribeBus (subscribeBus [0, 2] 1) 1 ↔ 0 ∈ [0, 2])
        ∧ emitDeliver (unsubscribeBus (subscribeBus [0, 2] 1) 1) (fun _ => false) = [0, 2]) :=
  ⟨by decide, C7_unsubscribe_token [0, 2] 1 0 (by decide)⟩

/-- Invariant of the bus run: a callback that never subscribes and is not
currently registered receives nothing. -/
theorem busRun_fresh_invariant (ops : List BusOp) (c : Nat)
    (st : List Nat × List (Nat × RealtimeEvent))
    (hsub : c ∉ st.1) (hlog : ∀ e, (c, e) ∉ st.2)
    (hops : ∀ op ∈ ops, op ≠ BusOp.sub c) :
    c ∉ (busRun st ops).1 ∧ ∀ e, (c, e) ∉ (busRun st ops).2 := by
  induction ops generalizing st with
  | nil => exact ⟨hsub, hlog⟩
  | cons op rest ih =>
    have hrest : ∀ o ∈ rest, o ≠ BusOp.sub c := fun o ho =>
      hops o (List.mem_cons_of_mem op ho)
    have hstep : busRun st (op :: rest) = busRun (busStep st op) rest := by
      simp [busRun, List.foldl_cons]
    rw [hstep]
    obtain ⟨subs, log⟩ := st
    match op with
    | BusOp.pub e =>
      apply ih
      · exact hsub
      · intro e' he'
        simp only [busStep, List.mem_append] at he'
        rcases he' with h | h
        · exact hlog e' h
        · obtain ⟨a, ha, hax⟩ := List.mem_map.mp h
          injection hax with h1 h2
          exact hsub (h1 ▸ ha)
      · exact hrest
    | BusOp.sub d =>
      apply ih
      · have hdc : d ≠ c := fun hdc =>
          hops (BusOp.sub d) (List.mem_cons_self _ _) (congrArg BusOp.sub hdc)
        simp only [busStep, subscribeBus]
        by_cases hmem : d ∈ subs
        · simpa [hmem] using hsub
        · simp only [hmem, if_false, reduceIte]
          intro hc
          rcases List.mem_append.mp hc with h | h
          · exact hsub h
          · have hcd : c = d := by simpa using h
            exact hdc hcd.symm
      · exact hlog
      · exact hrest
    | BusOp.unsub d =>
      apply ih
      · simp only [busStep, unsubscribeBus]
        intro hc
        exact hsub (List.mem_of_mem_filter hc)
      · exact hlog
      · exact hrest

/-- Forwarding bus events to a connection never changes its first frame. -/
theorem deliver_preserves_first_frame (deliveries : List RealtimeEvent)
    (s : ConnState) (h : s.frames.head? = some Frame.connected) :
    (deliveries.foldl deliverEvent s).frames.head? = some Frame.connected := by
  induction deliveries generalizing s with
  | nil => exact h
  | cons e rest ih =>
    simp only [List.foldl_cons]
    apply ih
    unfold deliverEvent
    by_cases hs : s.subscribed
    · simp only [hs, if_true, reduceIte]
      cases hf : s.frames with
      | nil => rw [hf] at h; simp at h
      | cons a l =>
        rw [hf] at h
        simp only [List.head?_cons, Option.some.injEq] at h
        simp [h]
    · simpa [hs] using h

/-- C8: a subscriber registered on the EventBus after events were published
never receives those events: for every sequence of prior bus operations in
which callback c never subscribed, nothing was delivered to c; subscribing c
afterwards delivers nothing retroactively (the log is unchanged); and a
newly opened event-stream connection has the synthetic connected frame as
its first frame no matter how many events are forwarded afterwards. -/
theorem C8_no_replay_for_late_subscriber (ops : List BusOp) (c : Nat)
    (deliveries : List RealtimeEvent)
    (hops : ∀ op ∈ ops, op ≠ BusOp.sub c) :
    (∀ e, (c, e) ∉ (busRun ([], []) ops).2)
    ∧ (busRun ([], []) (ops ++ [BusOp.sub c])).2 = (busRun ([], []) ops).2
    ∧ (deliveries.foldl deliverEvent eventsStart).frames.head? = some Frame.connected := by
  refine ⟨(busRun_fresh_invariant ops c ([], []) (by simp) (by simp) hops).2, ?_, ?_⟩
  · simp only [busRun, List.foldl_append, List.foldl_cons, List.foldl_nil]
    rcases h : List.foldl busStep ([], []) ops with ⟨subs, log⟩
    simp [busStep]
  · exact deliver_preserves_first_frame deliveries eventsStart rfl

/-- C8 witness: two prior submissions' worth of published events, then a
fresh subscriber. -/
theorem C8_witness :
    (∀ op ∈ [BusOp.sub 0, BusOp.pub (validationEvent "evt_9"), BusOp.pub (completedEvent "evt_9" sampleRecord)],
        op ≠ BusOp.sub 1)
    ∧ ((∀ e, ((1:Nat), e) ∉ (busRun ([], [])
          [BusOp.sub 0, BusOp.pub (validationEvent "evt_9"), BusOp.pub (completedEvent "evt_9" sampleRecord)]).2)
        ∧ (busRun ([], [])
            ([BusOp.sub 0, BusOp.pub (validationEvent "evt_9"), BusOp.pub (completedEvent "evt_9" sampleRecord)]
              ++ [BusOp.sub 1])).2
          = (busRun ([], [])
              [BusOp.sub 0, BusOp.pub (validationEvent "evt_9"), BusOp.pub (completedEvent "evt_9" sampleRecord)]).2
        ∧ ([validationEvent "evt_9"].foldl deliverEvent eventsStart).frames.head? = some Frame.connected) :=
  ⟨by decide,
   C8_no_replay_for_late_subscriber
     [BusOp.sub 0, BusOp.pub (validationEvent "evt_9"), BusOp.pub (completedEvent "evt_9" sampleRecord)]
     1 [validationEvent "evt_9"] (by decide)⟩

/-- C9 counterexample: the memory route's POST handler performs a
partial-field external write: merging a body that sets only totalErrors
changes that single field of the store (here to 99) while leaving every
other field untouched, producing a state that is neither the pipeline's
Commit result shape nor the cleared initial store — so a write path other
than Commit and clear exists. -/
theorem C9_counterexample :
    (memoryPOSTHandler createMemoryStore
        (some { totalErrors := some 99, lastProcessed := none
                workflows := none, statistics := none })).1.totalErrors = 99
    ∧ (memoryPOSTHandler createMemoryStore
        (some { totalErrors := some 99, lastProcessed := none
                workflows := none, statistics := none })).1.workflows = []
    ∧ (memoryPOSTHandler createMemoryStore
        (some { totalErrors := some 99, lastProcessed := none
                workflows := none, statistics := none })).2 = WStatus.ok200
    ∧ ¬ ((memoryPOSTHandler createMemoryStore
        (some { totalErrors := some 99, lastProcessed := none
                workflows := none, statistics := none })).1 = createMemoryStore)
    ∧ ¬ ((memoryPOSTHandler createMemoryStore
        (some { totalErrors := some 99, lastProcessed := none
                workflows := none, statistics := none })).1
          = memoryDELETEHandler createMemoryStore) := by
  decide

/-- C9 amended: the memory route exposes, besides the clear operation, a
POST merge-update that allows arbitrary partial-field external writes (a
body setting only totalErrors rewrites exactly that field); the clear
operation (DELETE) resets every field — totalErrors, lastProcessed,
workflows, both statistics maps and the average — to its initial zero value
in one step, regardless of prior content. -/
theorem C9_amended_clear_resets_and_merge_mutates (s : MemoryStore)
    (n : Nat) :
    memoryDELETEHandler s = createMemoryStore
    ∧ (memoryDELETEHandler s).totalErrors = 0
    ∧ (memoryDELETEHandler s).lastProcessed = none
    ∧ (memoryDELETEHandler s).workflows = []
    ∧ (memoryDELETEHandler s).statistics.errorTypes = []
    ∧ (memoryDELETEHandler s).statistics.severityCount = []
    ∧ (memoryDELETEHandler s).statistics.averageProcessingTime = 0
    ∧ memoryMerge s { totalErrors := some n, lastProcessed := none
                      workflows := none, statistics := none }
        = { s with totalErrors := n } := by
  exact ⟨rfl, rfl, rfl, rfl, rfl, rfl, rfl, rfl⟩

/-- C10: the worker route's memory aggregate and the memory route's
memoryStore are distinct module-level objects: memory-route operations
(POST merge, DELETE clear) leave the worker's store unchanged, and a worker
submission leaves the memory route's snapshot unchanged. -/
theorem C10_two_distinct_stores (st : AppState)
    (body : Option (Option String × String)) (rec : ErrorRecord)
    (now : String) (u : Option MemUpdates) :
    (appMemoryDELETE st).workerMemory = st.workerMemory
    ∧ (appMemoryPOST st u).1.workerMemory = st.workerMemory
    ∧ (appWorkerPOST st body rec now).1.apiMemoryStore = st.apiMemoryStore
    ∧ appMemoryGET (appWorkerPOST st body rec now).1 = appMemoryGET st
    ∧ appWorkerGETMemory (appMemoryDELETE st) = appWorkerGETMemory st
    ∧ appWorkerGETMemory (appMemoryPOST st u).1 = appWorkerGETMemory st := by
  exact ⟨rfl, rfl, rfl, rfl, rfl, rfl⟩
